import Mathlib

/-!
Shallow embedding of the real-time conversation-routing and presence server
of the `realtime-widget-chat-app` repository (`src/server.ts`, with the
inbound-payload schemas from `src/src/types/index.ts`).

Each socket handler is embedded as a function from server state (and the
socket id and raw payload) to a new state plus the list of broadcasts it
emits; an `elapse` function advances logical time and fires due typing
timers.  Handlers run on a single-threaded event loop but SUSPEND at every
awaited database call; where that matters — the Conversation Resolver yields
between its `findFirst` lookup and its `create` — the post-await continuation
is a separate function (`customerMessageResume`) taking the awaited result as
an argument, so interleaved schedules can be expressed by resuming against a
state that changed while the lookup was in flight.
Database rows (conversations, messages, agents) are plain lists; JavaScript
`Map`s become association lists; `setTimeout` timers become records holding
their expiry instant.  Persistence calls whose failure the code swallows
(`.catch(...)` on the presence updates) take an explicit `persistOk` flag;
all other persistence calls are modelled as succeeding.
-/

/-- `status` column of a Conversation row (`ConversationStatus` in the source). -/
inductive ConvStatus
  | open'
  | assigned
  | closed
deriving DecidableEq, Repr

/-- `priority` column of a Conversation row. -/
inductive Priority
  | low
  | normal
  | high
  | urgent
deriving DecidableEq, Repr

/-- `senderType` of a message / `userType` of a connection. -/
inductive SenderType
  | agent
  | customer
deriving DecidableEq, Repr

/-- A Conversation row.  Timestamps are logical instants (`Nat`). -/
structure Conversation where
  id : String
  customerId : String
  customerName : Option String
  customerEmail : Option String
  agentId : Option String
  status : ConvStatus
  priority : Priority
  unreadCount : Nat
  createdAt : Nat
  updatedAt : Nat
deriving DecidableEq, Repr

/-- A Message row. -/
structure Message where
  id : String
  conversationId : String
  senderId : String
  senderType : SenderType
  senderName : String
  content : String
  fileUrl : Option String
  fileName : Option String
  isRead : Bool
  createdAt : Nat
deriving DecidableEq, Repr

/-- An Agent row (only the columns the socket server touches). -/
structure AgentRec where
  id : String
  email : String
  name : String
  isOnline : Bool
  lastSeen : Nat
deriving DecidableEq, Repr

/-- One entry of the in-memory `activeConnections` map (`ActiveConnection`). -/
structure ActiveConnection where
  socketId : String
  conversationId : Option String
  userId : String
  userType : SenderType
deriving DecidableEq, Repr

/-- A pending `setTimeout` armed by a typing handler: the instant at which it
will fire and the data its `typing:stop` broadcast will carry. -/
structure TypingTimer where
  expiresAt : Nat
  conversationId : String
  senderId : String
  senderType : SenderType
  socketId : String
deriving DecidableEq, Repr

/-- A dynamically-typed JSON-ish scalar. -/
inductive RawScalar
  | str (s : String)
  | num (n : Int)
  | boolean (b : Bool)
  | null
deriving DecidableEq, Repr

/-- A dynamically-typed JSON-ish value, as delivered by socket.io before any
validation (the `data` argument of the handlers).  Arrays nest only scalars
here: the one schema accepting an array (`messageIds`) accepts only an array
of strings, so deeper nesting is never distinguished by the server. -/
inductive RawVal
  | str (s : String)
  | num (n : Int)
  | boolean (b : Bool)
  | null
  | arr (elems : List RawScalar)
deriving DecidableEq, Repr

/-- A raw inbound payload: a JavaScript object, as a field map. -/
abbrev RawPayload := List (String × RawVal)

/-- Database state: the three tables the socket server reads and writes. -/
structure Db where
  agents : List AgentRec
  conversations : List Conversation
  messages : List Message
deriving DecidableEq, Repr

/-- Whole server state: database plus the in-memory maps of `server.ts`
(`activeConnections`, `typingUsers`, socket.io room membership), the id
generators (modelling `cuid()`), and the current logical time. -/
structure ServerState where
  db : Db
  activeConnections : List (String × ActiveConnection)
  typingUsers : List (String × TypingTimer)
  rooms : List (String × List String)
  nextConvId : Nat
  nextMsgId : Nat
  now : Nat
deriving DecidableEq, Repr

/-- Broadcast targets of the socket layer: `io.to(room)`, `socket.to(room)`
(room minus the sender's socket), `socket.emit` (one socket), `io.emit`. -/
inductive Target
  | room (name : String)
  | roomExcept (name : String) (excluded : String)
  | socketOnly (sid : String)
  | everyone
deriving DecidableEq, Repr

/-- Outbound events.  `conversation:created` / `conversation:updated` carry the
conversation row plus the inlined last message of the enriched listing shape
(the agent summary of that shape is determined by the row's `agentId` and is
not replicated here). -/
inductive OutEvent
  | conversationCreated (conv : Conversation) (lastMessage : Option Message)
  | conversationUpdated (conv : Conversation) (lastMessage : Option Message)
  | messageReceived (msg : Message)
  | messageError (tempId : Option RawVal) (error : String)
  | typingStart (conversationId : String) (senderId : String) (senderType : SenderType)
  | typingStop (conversationId : String) (senderId : String) (senderType : SenderType)
  | agentStatus (agentId : Option RawVal) (isOnline : Bool) (lastSeen : Nat)
  | messagesRead (conversationId : String) (messageIds : List String) (readBy : String)
deriving DecidableEq, Repr

/-- One emitted broadcast. -/
abbrev Emission := Target × OutEvent

/-- Field lookup on a raw payload (JavaScript property access / destructuring;
a missing key is `undefined`, here `none`). -/
def getRaw (raw : RawPayload) (k : String) : Option RawVal :=
  (raw.find? (fun kv => kv.1 == k)).map (fun kv => kv.2)

/-- JavaScript `String(...)` conversion of a scalar. -/
def rawScalarToStr : RawScalar → String
  | .str s => s
  | .num n => toString n
  | .boolean b => if b then ("true") else ("false")
  | .null => "null"

/-- JavaScript template-literal string conversion of a value
(arrays join their elements with commas). -/
def rawValToStr : RawVal → String
  | .str s => s
  | .num n => toString n
  | .boolean b => if b then ("true") else ("false")
  | .null => "null"
  | .arr l => String.intercalate (",") (l.map rawScalarToStr)

/-- String conversion of an optional raw value (missing = `undefined`). -/
def rawToStr : Option RawVal → String
  | none => "undefined"
  | some v => rawValToStr v

/-- JavaScript `a || b` on a nullable string and a string default
(`null`, `undefined`, and the empty string are falsy). -/
def jsOr (o : Option String) (d : String) : String :=
  match o with
  | some s => if s == "" then d else s
  | none => d

/-- JavaScript `a || b` where both sides are nullable strings; used for the
`customerName: customerName || conversation.customerName` updates (and for
`customerName || undefined` inside a Prisma update, which leaves the stored
value unchanged when the new value is falsy). -/
def jsOrOpt (newVal old : Option String) : Option String :=
  match newVal with
  | some s => if s == "" then old else some s
  | none => old

/-- JavaScript truthiness of a nullable string. -/
def truthy (o : Option String) : Bool :=
  match o with
  | some s => s != ""
  | none => false

/-- Fresh-id tag: `n` repetitions of one character.  The source generates ids
with `cuid()`; the model only needs an injective generator of ids that are
fresh relative to all previously generated ones, and this unary encoding makes
injectivity immediate. -/
def natTag (n : Nat) : String :=
  String.mk (List.replicate n (Char.ofNat 120))

/-- Generated id of the `n`-th created conversation. -/
def genConvId (n : Nat) : String := "c" ++ natTag n

/-- Generated id of the `n`-th created message. -/
def genMsgId (n : Nat) : String := "m" ++ natTag n

/-- `true` on the statuses the Conversation Resolver treats as active
(`status: { in: ["open", "assigned"] }`). -/
def isActiveB : ConvStatus → Bool
  | .open' => true
  | .assigned => true
  | .closed => false

/-- `prisma.conversation.findUnique({ where: { id } })`. -/
def findConvById (convs : List Conversation) (cid : String) : Option Conversation :=
  convs.find? (fun c => c.id == cid)

/-- `prisma.agent.findUnique({ where: { id } })`. -/
def findAgentById (agents : List AgentRec) (aid : String) : Option AgentRec :=
  agents.find? (fun a => a.id == aid)

/-- A single-row update: apply `f` to the conversation with id `cid`. -/
def updateConvById (convs : List Conversation) (cid : String)
    (f : Conversation → Conversation) : List Conversation :=
  convs.map (fun c => if c.id == cid then f c else c)

/-- A single-row update on the agents table. -/
def updateAgentById (agents : List AgentRec) (aid : String)
    (f : AgentRec → AgentRec) : List AgentRec :=
  agents.map (fun a => if a.id == aid then f a else a)

/-- The row with maximal `updatedAt` (`orderBy: { updatedAt: "desc" }` then
take the first row). -/
def mostRecentConv : List Conversation → Option Conversation
  | [] => none
  | c :: rest =>
    match mostRecentConv rest with
    | none => some c
    | some b => if b.updatedAt < c.updatedAt then some c else some b

/-- `prisma.conversation.findFirst({ where: { customerId, status: { in:
["open", "assigned"] } }, orderBy: { updatedAt: "desc" } })` — the Conversation
Resolver's lookup-before-create query. -/
def findFirstActive (convs : List Conversation) (customerId : String) : Option Conversation :=
  mostRecentConv (convs.filter (fun c => c.customerId == customerId && isActiveB c.status))

/-- Messages are stored newest-first, so the `take: 1, orderBy: { createdAt:
"desc" }` inlined last message is the first stored message of the conversation. -/
def lastMessageOf (msgs : List Message) (cid : String) : Option Message :=
  (msgs.filter (fun m => m.conversationId == cid)).head?

/-- `activeConnections.set(socket.id, conn)` (replace-or-insert, preserving
the position of an existing key like a JavaScript `Map`). -/
def setConn (conns : List (String × ActiveConnection)) (sid : String)
    (c : ActiveConnection) : List (String × ActiveConnection) :=
  if conns.any (fun kv => kv.1 == sid) then
    conns.map (fun kv => if kv.1 == sid then (sid, c) else kv)
  else
    conns ++ [(sid, c)]

/-- `activeConnections.get(socket.id)`. -/
def lookupConn (conns : List (String × ActiveConnection)) (sid : String) :
    Option ActiveConnection :=
  (conns.find? (fun kv => kv.1 == sid)).map (fun kv => kv.2)

/-- `activeConnections.delete(socket.id)`. -/
def removeConn (conns : List (String × ActiveConnection)) (sid : String) :
    List (String × ActiveConnection) :=
  conns.filter (fun kv => kv.1 != sid)

/-- `socket.join(room)`: add the socket to the room, a no-op if already a
member. -/
def joinRoom (s : ServerState) (sid : String) (name : String) : ServerState :=
  { s with rooms :=
      if s.rooms.any (fun kv => kv.1 == name) then
        s.rooms.map (fun kv =>
          if kv.1 == name then
            (kv.1, if kv.2.contains sid then kv.2 else kv.2 ++ [sid])
          else kv)
      else
        s.rooms ++ [(name, [sid])] }

/-- `conn.conversationId = conversation.id` on the registry entry of `sid`. -/
def attachConversation (s : ServerState) (sid : String) (cid : String) : ServerState :=
  { s with activeConnections :=
      s.activeConnections.map (fun kv =>
        if kv.1 == sid then (kv.1, { kv.2 with conversationId := some cid }) else kv) }

/-- Sockets of a room (empty when the room does not exist). -/
def roomMembers (rooms : List (String × List String)) (name : String) : List String :=
  match rooms.find? (fun kv => kv.1 == name) with
  | some kv => kv.2
  | none => []

/-- Whether a socket receives a broadcast aimed at the given target,
relative to a room-membership snapshot. -/
def receives (rooms : List (String × List String)) (sid : String) : Target → Bool
  | .room n => (roomMembers rooms n).contains sid
  | .roomExcept n ex => (roomMembers rooms n).contains sid && sid != ex
  | .socketOnly t => sid == t
  | .everyone => true

/-- The sequence of events a given socket receives from a list of emissions,
relative to a room-membership snapshot. -/
def deliveredTo (rooms : List (String × List String)) (sid : String)
    (ems : List Emission) : List OutEvent :=
  (ems.filter (fun em => receives rooms sid em.1)).map (fun em => em.2)

/-- Whether the second character sequence begins the first. -/
def seqStartsWith : List Char → List Char → Bool
  | _, [] => true
  | [], _ :: _ => false
  | a :: as, b :: bs => a == b && seqStartsWith as bs

/-- Whether the second character sequence occurs inside the first. -/
def seqContains : List Char → List Char → Bool
  | [], needle => needle.isEmpty
  | a :: rest, needle => seqStartsWith (a :: rest) needle || seqContains rest needle

/-- `key.includes(socket.id)` of the disconnect handler's typing-cleanup loop:
substring containment on strings. -/
def strIncludes (hay needle : String) : Bool :=
  seqContains hay.data needle.data

/-- Parsed `CustomerJoinSchema` payload. -/
structure CustomerJoinPayload where
  customerId : String
  customerName : Option String
  customerEmail : Option String
  conversationId : Option String
deriving DecidableEq, Repr

/-- Parsed `CustomerMessageSchema` payload. -/
structure CustomerMessagePayload where
  conversationId : Option String
  customerId : String
  customerName : Option String
  customerEmail : Option String
  content : String
  fileUrl : Option String
  fileName : Option String
  tempId : Option String
deriving DecidableEq, Repr

/-- Parsed `AgentJoinSchema` payload. -/
structure AgentJoinPayload where
  agentId : String
  conversationId : String
deriving DecidableEq, Repr

/-- Parsed `AgentMessageSchema` payload. -/
structure AgentMessagePayload where
  conversationId : String
  agentId : String
  content : String
  fileUrl : Option String
  fileName : Option String
  tempId : Option String
deriving DecidableEq, Repr

/-- Parsed `TypingSchema` payload. -/
structure TypingPayload where
  conversationId : String
  senderId : String
  senderType : SenderType
deriving DecidableEq, Repr

/-- Parsed `MarkReadSchema` payload. -/
structure MarkReadPayload where
  conversationId : String
  messageIds : List String
  readBy : String
  readByType : SenderType
deriving DecidableEq, Repr

/-- Over-approximation of the zod string-format refinements (`uuid()`,
`cuid()`, `email()`, `url()`).  These refinements constrain only the shape of
identifier/address strings; no claim depends on their exact definition, so the
model accepts every string for them. -/
def formatOk (_s : String) : Bool := true

/-- A required `z.string()` field. -/
def reqStr (raw : RawPayload) (k : String) : Option String :=
  match getRaw raw k with
  | some (.str s) => some s
  | _ => none

/-- An optional `z.string().optional()` field: a missing key parses to `none`;
a present key must hold a string (in particular `null` is rejected, since the
schemas use `.optional()` and not `.nullable()`). -/
def optStr (raw : RawPayload) (k : String) : Option (Option String) :=
  match getRaw raw k with
  | none => some none
  | some (.str s) => some (some s)
  | some _ => none

/-- A `z.enum(["agent", "customer"])` field. -/
def reqSenderType (raw : RawPayload) (k : String) : Option SenderType :=
  match getRaw raw k with
  | some (.str s) =>
    if s == "agent" then some SenderType.agent
    else if s == "customer" then some SenderType.customer
    else none
  | _ => none

/-- A `z.array(z.string().cuid())` field. -/
def reqStrArray (raw : RawPayload) (k : String) : Option (List String) :=
  match getRaw raw k with
  | some (.arr l) =>
    l.mapM (fun v =>
      match v with
      | RawScalar.str s => if formatOk s then some s else none
      | _ => none)
  | _ => none

/-- Length bound of an optional string field (`z.string().max(n).optional()`). -/
def optLenLe (o : Option String) (n : Nat) : Bool :=
  match o with
  | some s => s.length ≤ n
  | none => true

/-- Format refinement of an optional string field. -/
def optFormatOk (o : Option String) : Bool :=
  match o with
  | some s => formatOk s
  | none => true

/-- `CustomerJoinSchema.safeParse`. -/
def parseCustomerJoin (raw : RawPayload) : Option CustomerJoinPayload :=
  match reqStr raw ("customerId"), optStr raw ("customerName"),
      optStr raw ("customerEmail"), optStr raw ("conversationId") with
  | some customerId, some customerName, some customerEmail, some conversationId =>
    if formatOk customerId && optLenLe customerName 100 && optFormatOk customerEmail
        && optFormatOk conversationId then
      some { customerId, customerName, customerEmail, conversationId }
    else none
  | _, _, _, _ => none

/-- `CustomerMessageSchema.safeParse`. -/
def parseCustomerMessage (raw : RawPayload) : Option CustomerMessagePayload :=
  match optStr raw ("conversationId"), reqStr raw ("customerId"),
      optStr raw ("customerName"), optStr raw ("customerEmail"),
      reqStr raw ("content"), optStr raw ("fileUrl"),
      optStr raw ("fileName"), optStr raw ("tempId") with
  | some conversationId, some customerId, some customerName, some customerEmail,
      some content, some fileUrl, some fileName, some tempId =>
    if optFormatOk conversationId && formatOk customerId && optLenLe customerName 100
        && optFormatOk customerEmail && 1 ≤ content.length && content.length ≤ 5000
        && optFormatOk fileUrl && optLenLe fileName 255 then
      some { conversationId, customerId, customerName, customerEmail, content,
             fileUrl, fileName, tempId }
    else none
  | _, _, _, _, _, _, _, _ => none

/-- `AgentJoinSchema.safeParse`. -/
def parseAgentJoin (raw : RawPayload) : Option AgentJoinPayload :=
  match reqStr raw ("agentId"), reqStr raw ("conversationId") with
  | some agentId, some conversationId =>
    if formatOk agentId && formatOk conversationId then
      some { agentId, conversationId }
    else none
  | _, _ => none

/-- `AgentMessageSchema.safeParse`. -/
def parseAgentMessage (raw : RawPayload) : Option AgentMessagePayload :=
  match reqStr raw ("conversationId"), reqStr raw ("agentId"),
      reqStr raw ("content"), optStr raw ("fileUrl"),
      optStr raw ("fileName"), optStr raw ("tempId") with
  | some conversationId, some agentId, some content, some fileUrl,
      some fileName, some tempId =>
    if formatOk conversationId && formatOk agentId && 1 ≤ content.length
        && content.length ≤ 5000 && optFormatOk fileUrl && optLenLe fileName 255 then
      some { conversationId, agentId, content, fileUrl, fileName, tempId }
    else none
  | _, _, _, _, _, _ => none

/-- `TypingSchema.safeParse`. -/
def parseTyping (raw : RawPayload) : Option TypingPayload :=
  match reqStr raw ("conversationId"), reqStr raw ("senderId"),
      reqSenderType raw ("senderType") with
  | some conversationId, some senderId, some senderType =>
    if formatOk conversationId then
      some { conversationId, senderId, senderType }
    else none
  | _, _, _ => none

/-- `MarkReadSchema.safeParse`. -/
def parseMarkRead (raw : RawPayload) : Option MarkReadPayload :=
  match reqStr raw ("conversationId"), reqStrArray raw ("messageIds"),
      reqStr raw ("readBy"), reqSenderType raw ("readByType") with
  | some conversationId, some messageIds, some readBy, some readByType =>
    if formatOk conversationId then
      some { conversationId, messageIds, readBy, readByType }
    else none
  | _, _, _, _ => none

/-- The undeclared payload type of `agent:online` / `agent:offline`
(`AgentStatusPayload { agentId: string }`).  The handlers perform no schema
validation, so this predicate is used only to STATE well-formedness claims
about them, never by the handlers themselves. -/
def agentStatusWellFormed (raw : RawPayload) : Bool :=
  match getRaw raw ("agentId") with
  | some (.str _) => true
  | _ => false

/-- `setTimeout(..., 3000)` quiet window of the typing coordinator. -/
def typingTimeoutMs : Nat := 3000

/-- The Message row persisted for a customer message
(`prisma.message.create` in the `customer:message` handler). -/
def mkCustomerMessage (s : ServerState) (p : CustomerMessagePayload) (convId : String) :
    Message :=
  { id := genMsgId s.nextMsgId
    conversationId := convId
    senderId := p.customerId
    senderType := SenderType.customer
    senderName := jsOr p.customerName ("Customer")
    content := p.content
    fileUrl := p.fileUrl
    fileName := p.fileName
    isRead := false
    createdAt := s.now }

/-- Tail shared by every successful `customer:message` path: persist the
Message row, bump `updatedAt` and increment `unreadCount` on the conversation,
broadcast `message:received` to the conversation room, then broadcast
`conversation:updated` (enriched shape) to the `agents` room. -/
def sharedCustomerTail (s : ServerState) (p : CustomerMessagePayload)
    (conv : Conversation) (pre : List Emission) : ServerState × List Emission :=
  let msg := mkCustomerMessage s p conv.id
  let s1 := { s with db := { s.db with messages := msg :: s.db.messages },
                     nextMsgId := s.nextMsgId + 1 }
  let convs2 := updateConvById s1.db.conversations conv.id
    (fun c => { c with updatedAt := s.now, unreadCount := c.unreadCount + 1 })
  let s2 := { s1 with db := { s1.db with conversations := convs2 } }
  let updEms :=
    match findConvById s2.db.conversations conv.id with
    | some c2 =>
      [(Target.room ("agents"), OutEvent.conversationUpdated c2 (lastMessageOf s2.db.messages conv.id))]
    | none => []
  (s2, pre ++ [(Target.room ("conversation:" ++ conv.id), OutEvent.messageReceived msg)] ++ updEms)

/-- Continuation of the no-`conversationId` path of the `customer:message`
handler AFTER its awaited Resolver lookup (`prisma.conversation.findFirst`)
has returned `found`.  The source handler suspends at that `await`: other
socket events (including another `customer:message` for the same customer)
may run to their own create before this continuation resumes, so `found` can
be stale with respect to the state `s` the continuation runs against.  When
`found` is `none` it creates the conversation (`status: "open"`,
`unreadCount: 1`) and broadcasts `conversation:created` to the `agents` room;
when `found` is a conversation it refreshes the customer info on it.  Either
way it then joins the room, registers the conversation on the connection, and
runs the shared persist-and-broadcast tail. -/
def customerMessageResume (s : ServerState) (sid : String)
    (p : CustomerMessagePayload) (found : Option Conversation) :
    ServerState × List Emission :=
  match found with
  | some conv0 =>
    let upd := fun (c : Conversation) =>
      { c with customerName := jsOrOpt p.customerName c.customerName
               customerEmail := jsOrOpt p.customerEmail c.customerEmail
               updatedAt := s.now }
    let conv := upd conv0
    let s1 := { s with
      db := { s.db with conversations := updateConvById s.db.conversations conv0.id upd } }
    let s2 := attachConversation s1 sid conv.id
    let s3 := joinRoom s2 sid ("conversation:" ++ conv.id)
    sharedCustomerTail s3 p conv []
  | none =>
    let conv : Conversation :=
      { id := genConvId s.nextConvId
        customerId := p.customerId
        customerName := p.customerName
        customerEmail := p.customerEmail
        agentId := none
        status := ConvStatus.open'
        priority := Priority.normal
        unreadCount := 1
        createdAt := s.now
        updatedAt := s.now }
    let s1 := { s with
      db := { s.db with conversations := conv :: s.db.conversations }
      nextConvId := s.nextConvId + 1 }
    let createdEms :=
      match findConvById s1.db.conversations conv.id with
      | some c1 =>
        [(Target.room ("agents"),
          OutEvent.conversationCreated c1 (lastMessageOf s1.db.messages conv.id))]
      | none => []
    let s2 := attachConversation s1 sid conv.id
    let s3 := joinRoom s2 sid ("conversation:" ++ conv.id)
    sharedCustomerTail s3 p conv createdEms

/-- Body of the `customer:message` handler after successful validation: the
Conversation Resolver (on an explicit `conversationId`, load it or error out;
otherwise the awaited lookup of the customer's most recent open/assigned
conversation followed by the `customerMessageResume` continuation), then the
shared persist-and-broadcast tail.  NOTE this function strings the lookup and
its continuation together with nothing interleaved — the run of the handler
in an otherwise-idle server.  The source yields at the `await` between them,
so a concurrent schedule is a `customerMessageResume` applied to a stale
lookup result; it is NOT expressible as `customerMessageCore`. -/
def customerMessageCore (s : ServerState) (sid : String) (p : CustomerMessagePayload) :
    ServerState × List Emission :=
  match p.conversationId with
  | some cid =>
    match findConvById s.db.conversations cid with
    | none =>
      (s, [(Target.socketOnly sid,
            OutEvent.messageError (p.tempId.map RawVal.str) ("Conversation not found"))])
    | some conv => sharedCustomerTail s p conv []
  | none =>
    customerMessageResume s sid p (findFirstActive s.db.conversations p.customerId)

/-- The `customer:message` handler: validation, then the core; a malformed
payload is answered with `message:error` carrying the RAW payload's `tempId`. -/
def handleCustomerMessage (s : ServerState) (sid : String) (raw : RawPayload) :
    ServerState × List Emission :=
  match parseCustomerMessage raw with
  | none =>
    (s, [(Target.socketOnly sid,
          OutEvent.messageError (getRaw raw ("tempId")) ("Invalid message data"))])
  | some p => customerMessageCore s sid p

/-- Body of the `customer:join` handler after successful validation: register
the connection, join the conversation room (when given) and the customer's
personal room, and fill in customer name/email on the conversation when
provided.  (A nonexistent `conversationId` would make the Prisma update throw
into the handler's catch block after the joins; the state outcome is the same
as this no-op update.) -/
def customerJoinCore (s : ServerState) (sid : String) (p : CustomerJoinPayload) :
    ServerState × List Emission :=
  let conn : ActiveConnection :=
    { socketId := sid
      conversationId := p.conversationId
      userId := p.customerId
      userType := SenderType.customer }
  let s1 := { s with activeConnections := setConn s.activeConnections sid conn }
  let s2 :=
    match p.conversationId with
    | some cid => joinRoom s1 sid ("conversation:" ++ cid)
    | none => s1
  let s3 := joinRoom s2 sid ("customer:" ++ p.customerId)
  let s4 :=
    match p.conversationId with
    | some cid =>
      if truthy p.customerName || truthy p.customerEmail then
        let convs' := updateConvById s3.db.conversations cid
          (fun c => { c with customerName := jsOrOpt p.customerName c.customerName,
                             customerEmail := jsOrOpt p.customerEmail c.customerEmail })
        { s3 with db := { s3.db with conversations := convs' } }
      else s3
    | none => s3
  (s4, [])

/-- The `customer:join` handler. -/
def handleCustomerJoin (s : ServerState) (sid : String) (raw : RawPayload) :
    ServerState × List Emission :=
  match parseCustomerJoin raw with
  | none => (s, [(Target.socketOnly sid, OutEvent.messageError none ("Invalid join data"))])
  | some p => customerJoinCore s sid p

/-- Body of the `agent:join` handler after successful validation. -/
def agentJoinCore (s : ServerState) (sid : String) (p : AgentJoinPayload) :
    ServerState × List Emission :=
  let conn : ActiveConnection :=
    { socketId := sid
      conversationId := some p.conversationId
      userId := p.agentId
      userType := SenderType.agent }
  let s1 := { s with activeConnections := setConn s.activeConnections sid conn }
  let s2 := joinRoom s1 sid ("conversation:" ++ p.conversationId)
  let s3 := joinRoom s2 sid ("agents")
  let s4 := joinRoom s3 sid ("agent:" ++ p.agentId)
  (s4, [])

/-- The `agent:join` handler. -/
def handleAgentJoin (s : ServerState) (sid : String) (raw : RawPayload) :
    ServerState × List Emission :=
  match parseAgentJoin raw with
  | none => (s, [(Target.socketOnly sid, OutEvent.messageError none ("Invalid join data"))])
  | some p => agentJoinCore s sid p

/-- The Message row persisted for an agent message. -/
def mkAgentMessage (s : ServerState) (p : AgentMessagePayload) (senderName : String) :
    Message :=
  { id := genMsgId s.nextMsgId
    conversationId := p.conversationId
    senderId := p.agentId
    senderType := SenderType.agent
    senderName := senderName
    content := p.content
    fileUrl := p.fileUrl
    fileName := p.fileName
    isRead := false
    createdAt := s.now }

/-- The conversation update performed by the `agent:message` handler:
`agentId: conversation.agentId || agentId` and `status: conversation.status
=== "open" ? "assigned" : conversation.status`, computed from the snapshot
`conv` the handler loaded. -/
def agentAssignUpdate (now : Nat) (conv : Conversation) (agentId' : String)
    (c : Conversation) : Conversation :=
  { c with updatedAt := now
           agentId := some (jsOr conv.agentId agentId')
           status := if conv.status = ConvStatus.open' then ConvStatus.assigned else conv.status }

/-- Body of the `agent:message` handler after successful validation: load the
agent and the conversation (erroring out to the sender when either is
missing), persist the Message row, apply the auto-assign update, broadcast
`message:received` to the conversation room AND directly to the customer's
personal room, then `conversation:updated` to the `agents` room. -/
def agentMessageCore (s : ServerState) (sid : String) (p : AgentMessagePayload) :
    ServerState × List Emission :=
  match findAgentById s.db.agents p.agentId with
  | none =>
    (s, [(Target.socketOnly sid,
          OutEvent.messageError (p.tempId.map RawVal.str) ("Agent not found"))])
  | some agent =>
    match findConvById s.db.conversations p.conversationId with
    | none =>
      (s, [(Target.socketOnly sid,
            OutEvent.messageError (p.tempId.map RawVal.str) ("Conversation not found"))])
    | some conv =>
      let msg := mkAgentMessage s p agent.name
      let s1 := { s with db := { s.db with messages := msg :: s.db.messages },
                         nextMsgId := s.nextMsgId + 1 }
      let convs2 := updateConvById s1.db.conversations p.conversationId
        (agentAssignUpdate s.now conv p.agentId)
      let s2 := { s1 with db := { s1.db with conversations := convs2 } }
      let updEms :=
        match findConvById s2.db.conversations p.conversationId with
        | some c2 =>
          [(Target.room ("agents"),
            OutEvent.conversationUpdated c2 (lastMessageOf s2.db.messages p.conversationId))]
        | none => []
      (s2,
       [(Target.room ("conversation:" ++ p.conversationId), OutEvent.messageReceived msg),
        (Target.room ("customer:" ++ conv.customerId), OutEvent.messageReceived msg)]
       ++ updEms)

/-- The `agent:message` handler. -/
def handleAgentMessage (s : ServerState) (sid : String) (raw : RawPayload) :
    ServerState × List Emission :=
  match parseAgentMessage raw with
  | none =>
    (s, [(Target.socketOnly sid,
          OutEvent.messageError (getRaw raw ("tempId")) ("Invalid message data"))])
  | some p => agentMessageCore s sid p

/-- Body shared by `customer:typing` and `agent:typing` (the two handlers are
identical): clear any armed timer for `(conversationId, senderId)`, broadcast
`typing:start` to the conversation room excluding the sender's socket, and arm
a fresh 3000 ms expiry timer.  (A JavaScript `Map.set` on an existing key
keeps its position; this model re-appends, which no property here observes.) -/
def typingCore (s : ServerState) (sid : String) (p : TypingPayload) :
    ServerState × List Emission :=
  let key := p.conversationId ++ ":" ++ p.senderId
  let cleared := s.typingUsers.filter (fun kv => kv.1 != key)
  let timer : TypingTimer :=
    { expiresAt := s.now + typingTimeoutMs
      conversationId := p.conversationId
      senderId := p.senderId
      senderType := p.senderType
      socketId := sid }
  ({ s with typingUsers := cleared ++ [(key, timer)] },
   [(Target.roomExcept ("conversation:" ++ p.conversationId) sid,
     OutEvent.typingStart p.conversationId p.senderId p.senderType)])

/-- The `customer:typing` handler: a malformed payload is silently dropped. -/
def handleCustomerTyping (s : ServerState) (sid : String) (raw : RawPayload) :
    ServerState × List Emission :=
  match parseTyping raw with
  | none => (s, [])
  | some p => typingCore s sid p

/-- The `agent:typing` handler (same body as `customer:typing`). -/
def handleAgentTyping (s : ServerState) (sid : String) (raw : RawPayload) :
    ServerState × List Emission :=
  match parseTyping raw with
  | none => (s, [])
  | some p => typingCore s sid p

/-- The fire-and-forget presence persistence shared by `agent:online` /
`agent:offline` (`prisma.agent.update(...).catch(console.warn)`): when it
succeeds and the raw `agentId` is a string it updates that agent row; a
failure (or a non-string / missing `agentId`, which makes Prisma throw into
the same swallowed rejection) leaves the database untouched. -/
def presencePersist (persistOk : Bool) (isOn : Bool) (s : ServerState)
    (agentIdRaw : Option RawVal) : ServerState :=
  if persistOk then
    match agentIdRaw with
    | some (.str a) =>
      let agents' := updateAgentById s.db.agents a
        (fun ag => { ag with isOnline := isOn, lastSeen := s.now })
      { s with db := { s.db with agents := agents' } }
    | _ => s
  else s

/-- The `agent:online` handler.  NO schema validation: `agentId` is
destructured straight off the raw payload.  The Prisma update is fire-and-
forget (`.catch` logs and swallows failure), modelled by the `persistOk` flag;
the handler then joins the `agents` room and the agent's personal room and
ALWAYS broadcasts `agent:status` to every connected client. -/
def handleAgentOnline (persistOk : Bool) (s : ServerState) (sid : String)
    (raw : RawPayload) : ServerState × List Emission :=
  let agentIdRaw := getRaw raw ("agentId")
  let s1 := presencePersist persistOk true s agentIdRaw
  let s2 := joinRoom s1 sid ("agents")
  let s3 := joinRoom s2 sid ("agent:" ++ rawToStr agentIdRaw)
  (s3, [(Target.everyone, OutEvent.agentStatus agentIdRaw true s.now)])

/-- The `agent:offline` handler (no schema validation, fire-and-forget
persist, unconditional broadcast; unlike `agent:online` it joins no rooms). -/
def handleAgentOffline (persistOk : Bool) (s : ServerState) (_sid : String)
    (raw : RawPayload) : ServerState × List Emission :=
  let agentIdRaw := getRaw raw ("agentId")
  let s1 := presencePersist persistOk false s agentIdRaw
  (s1, [(Target.everyone, OutEvent.agentStatus agentIdRaw false s.now)])

/-- Body of the `messages:mark-read` handler after successful validation:
mark the listed messages of the conversation read; when the reader is an
agent, reset the conversation's `unreadCount` to 0 (a nonexistent conversation
makes that Prisma update throw, skipping the broadcast); finally broadcast
`messages:read` to the conversation room. -/
def markReadCore (s : ServerState) (p : MarkReadPayload) :
    ServerState × List Emission :=
  let msgs' := s.db.messages.map (fun m =>
    if p.messageIds.contains m.id && m.conversationId == p.conversationId then
      { m with isRead := true }
    else m)
  let s1 := { s with db := { s.db with messages := msgs' } }
  let readEm : Emission :=
    (Target.room ("conversation:" ++ p.conversationId),
     OutEvent.messagesRead p.conversationId p.messageIds p.readBy)
  if p.readByType = SenderType.agent then
    match findConvById s1.db.conversations p.conversationId with
    | some _ =>
      let convs' := updateConvById s1.db.conversations p.conversationId
        (fun c => { c with unreadCount := 0 })
      let s2 := { s1 with db := { s1.db with conversations := convs' } }
      (s2, [readEm])
    | none => (s1, [])
  else
    (s1, [readEm])

/-- The `messages:mark-read` handler: a malformed payload is silently dropped. -/
def handleMarkRead (s : ServerState) (_sid : String) (raw : RawPayload) :
    ServerState × List Emission :=
  match parseMarkRead raw with
  | none => (s, [])
  | some p => markReadCore s p

/-- The `disconnect` handler: if the connection was an agent's, fire-and-
forget persist of offline status and an unconditional `agent:status`
broadcast; remove the registry entry; then the typing-cleanup loop, which
deletes exactly the typing entries whose KEY CONTAINS THE SOCKET ID
(`key.includes(socket.id)`). -/
def handleDisconnect (persistOk : Bool) (s : ServerState) (sid : String) :
    ServerState × List Emission :=
  let step1 :=
    match lookupConn s.activeConnections sid with
    | some conn =>
      if conn.userType = SenderType.agent then
        let sa :=
          if persistOk then
            let agents' := updateAgentById s.db.agents conn.userId
              (fun ag => { ag with isOnline := false, lastSeen := s.now })
            { s with db := { s.db with agents := agents' } }
          else s
        ({ sa with activeConnections := removeConn sa.activeConnections sid },
         [(Target.everyone, OutEvent.agentStatus (some (RawVal.str conn.userId)) false s.now)])
      else
        ({ s with activeConnections := removeConn s.activeConnections sid }, [])
    | none => (s, [])
  let s1 := step1.1
  ({ s1 with typingUsers := s1.typingUsers.filter (fun kv => !(strIncludes kv.1 sid)) },
   step1.2)

/-- Advance logical time to `max now t`, firing every typing timer due by
then: each fired timer broadcasts `typing:stop` to its conversation room
excluding the socket that armed it, and is deleted from the map. -/
def elapseTo (s : ServerState) (t : Nat) : ServerState × List Emission :=
  let fired := s.typingUsers.filter (fun kv => kv.2.expiresAt ≤ t)
  let remaining := s.typingUsers.filter (fun kv => !(kv.2.expiresAt ≤ t : Bool))
  ({ s with typingUsers := remaining, now := max s.now t },
   fired.map (fun kv =>
     (Target.roomExcept ("conversation:" ++ kv.2.conversationId) kv.2.socketId,
      OutEvent.typingStop kv.2.conversationId kv.2.senderId kv.2.senderType)))

/-- The closed set of inbound socket events the server registers handlers
for. -/
inductive InboundEvent
  | customerJoin
  | customerMessage
  | customerTyping
  | agentJoin
  | agentMessage
  | agentTyping
  | agentOnline
  | agentOffline
  | markRead
deriving DecidableEq, Repr

/-- Uniform dispatch of one inbound socket event to its handler.  `persistOk`
is the outcome of the fire-and-forget presence persistence and is only
consulted by `agent:online` / `agent:offline`. -/
def dispatch : InboundEvent → Bool → ServerState → String → RawPayload →
    ServerState × List Emission
  | .customerJoin, _, s, sid, raw => handleCustomerJoin s sid raw
  | .customerMessage, _, s, sid, raw => handleCustomerMessage s sid raw
  | .customerTyping, _, s, sid, raw => handleCustomerTyping s sid raw
  | .agentJoin, _, s, sid, raw => handleAgentJoin s sid raw
  | .agentMessage, _, s, sid, raw => handleAgentMessage s sid raw
  | .agentTyping, _, s, sid, raw => handleAgentTyping s sid raw
  | .agentOnline, pOk, s, sid, raw => handleAgentOnline pOk s sid raw
  | .agentOffline, pOk, s, sid, raw => handleAgentOffline pOk s sid raw
  | .markRead, _, s, sid, raw => handleMarkRead s sid raw

/-- Whether a raw payload is well-formed for an event: for the seven events
with a zod schema this is exactly `safeParse` succeeding; `agent:online` and
`agent:offline` have no schema in the code, so well-formedness for them is
conformance to their declared `AgentStatusPayload` type. -/
def eventAccepts : InboundEvent → RawPayload → Bool
  | .customerJoin, raw => (parseCustomerJoin raw).isSome
  | .customerMessage, raw => (parseCustomerMessage raw).isSome
  | .customerTyping, raw => (parseTyping raw).isSome
  | .agentJoin, raw => (parseAgentJoin raw).isSome
  | .agentMessage, raw => (parseAgentMessage raw).isSome
  | .agentTyping, raw => (parseTyping raw).isSome
  | .agentOnline, raw => agentStatusWellFormed raw
  | .agentOffline, raw => agentStatusWellFormed raw
  | .markRead, raw => (parseMarkRead raw).isSome

/-- Initial server state: the in-memory maps are empty and no conversation or
message row exists yet; the agents table (populated out-of-band by seeding /
signup, never by the socket layer) is arbitrary. -/
def initState (agents : List AgentRec) : ServerState :=
  { db := { agents := agents, conversations := [], messages := [] }
    activeConnections := []
    typingUsers := []
    rooms := []
    nextConvId := 0
    nextMsgId := 0
    now := 0 }

/-- Two conversation rows never both active for one customer (the relation
whose pairwise closure is the at-most-one-active-conversation invariant). -/
def activeExcl (a b : Conversation) : Prop :=
  a.customerId = b.customerId →
    ¬(isActiveB a.status = true ∧ isActiveB b.status = true)

/-- The at-most-one-active-conversation invariant: no two rows of the
conversations table are both in status `open`/`assigned` for the same
customer. -/
def AtMostOneActive (convs : List Conversation) : Prop :=
  convs.Pairwise activeExcl

/-- Outcome shape demanded by the error-handling design for a rejected
payload: the state is unchanged and nothing is emitted except `message:error`
to the offending sender. -/
def ErrorOnlyOutcome (s : ServerState) (sid : String)
    (out : ServerState × List Emission) : Prop :=
  out.1 = s ∧
    ∀ em ∈ out.2, ∃ t err, em = (Target.socketOnly sid, OutEvent.messageError t err)

/-- Emissions of the single-typing-event-then-silence scenario: one typing
event at the current instant, then `d` quiet milliseconds. -/
def typingExpiryEvents (s : ServerState) (sid : String) (p : TypingPayload)
    (d : Nat) : List Emission :=
  let r1 := typingCore s sid p
  let r2 := elapseTo r1.1 (s.now + d)
  r1.2 ++ r2.2

/-- Emissions of the typing-refresh scenario: two identical typing events
`gap` milliseconds apart (no timer may fire in between when `gap < 3000`). -/
def typingRefreshEvents (s : ServerState) (sid : String) (p : TypingPayload)
    (gap : Nat) : List Emission :=
  let r1 := typingCore s sid p
  let r2 := elapseTo r1.1 (s.now + gap)
  let r3 := typingCore r2.1 sid p
  r1.2 ++ r2.2 ++ r3.2

/-- State after the typing-refresh scenario. -/
def typingRefreshAfter (s : ServerState) (sid : String) (p : TypingPayload)
    (gap : Nat) : ServerState :=
  let r1 := typingCore s sid p
  let r2 := elapseTo r1.1 (s.now + gap)
  (typingCore r2.1 sid p).1

/-- Number of `typing:start` broadcasts in a list of emissions. -/
def countTypingStarts (ems : List Emission) : Nat :=
  (ems.filter (fun em =>
    match em.2 with
    | OutEvent.typingStart _ _ _ => true
    | _ => false)).length

/-- Number of `typing:stop` broadcasts in a list of emissions. -/
def countTypingStops (ems : List Emission) : Nat :=
  (ems.filter (fun em =>
    match em.2 with
    | OutEvent.typingStop _ _ _ => true
    | _ => false)).length

/-- A fixed customer id used by the concrete scenarios. -/
def scnCustomerId : String := "11111111-1111-1111-1111-111111111111"

/-- The valid `customer:message` payload of the unread-accounting scenario
(`{ customerId, content: "hi" }`, no `conversationId`). -/
def c2Raw : RawPayload :=
  [("customerId", RawVal.str scnCustomerId), ("content", RawVal.str ("hi"))]

/-- Unread-accounting scenario, step 0: empty store. -/
def c2S0 : ServerState := initState []

/-- Unread-accounting scenario after the 1st customer message (this one
creates the conversation). -/
def c2S1 : ServerState := (handleCustomerMessage c2S0 ("s1") c2Raw).1

/-- Unread-accounting scenario after the 2nd customer message. -/
def c2S2 : ServerState := (handleCustomerMessage c2S1 ("s1") c2Raw).1

/-- Unread-accounting scenario after the 3rd customer message. -/
def c2S3 : ServerState := (handleCustomerMessage c2S2 ("s1") c2Raw).1

/-- The `messages:mark-read` payload of the unread-accounting scenario, with
`readByType: "agent"`, aimed at the conversation the scenario created. -/
def c2MarkRaw : RawPayload :=
  [("conversationId", RawVal.str (genConvId 0)),
   ("messageIds", RawVal.arr []),
   ("readBy", RawVal.str ("agent-1")),
   ("readByType", RawVal.str ("agent"))]

/-- Unread-accounting scenario after the agent marks messages read. -/
def c2S4 : ServerState := (handleMarkRead c2S3 ("s2") c2MarkRaw).1

/-- The parsed form of `c2Raw`: a first customer message with no
`conversationId`. -/
def raceP : CustomerMessagePayload :=
  { conversationId := none
    customerId := scnCustomerId
    customerName := none
    customerEmail := none
    content := "hi"
    fileUrl := none
    fileName := none
    tempId := none }

/-- The awaited Resolver lookup both racing sends observe: issued against the
initial empty store, it returns `none` for either of them. -/
def raceLookup : Option Conversation :=
  findFirstActive c2S0.db.conversations raceP.customerId

/-- State after the interleaved schedule of two concurrent first messages for
the same customer: sockets `sA` and `sB` both enter the `customer:message`
handler and suspend at the awaited `findFirst`; both lookups complete (each
observing `none`, no active conversation yet) before either continuation
runs; then socket `sB`'s continuation creates a conversation, and socket
`sA`'s continuation — resuming with its now-stale `none` — creates another. -/
def c1RaceState : ServerState :=
  (customerMessageResume
    (customerMessageResume c2S0 ("sB") raceP raceLookup).1
    ("sA") raceP raceLookup).1

/-- A malformed `agent:online` payload: `agentId` is a number, not a string. -/
def c5BadRaw : RawPayload := [("agentId", RawVal.num 42)]

/-- The typing payload of the concrete typing scenarios. -/
def scnTypingP : TypingPayload :=
  { conversationId := "cv1", senderId := "u1", senderType := SenderType.customer }

/-- Typing-refresh counterexample trace: two typing events 1000 ms apart,
then enough further silence (4000 ms after the second event) for every armed
timer to fire. -/
def c7Trace : List Emission :=
  typingRefreshEvents (initState []) ("sA") scnTypingP 1000
    ++ (elapseTo (typingRefreshAfter (initState []) ("sA") scnTypingP 1000) 8000).2

/-- The armed typing timer of the dangling-timer scenario: customer `u1`
typing in conversation `cv1` from socket `s1`. -/
def c8Timer : TypingTimer :=
  { expiresAt := 3000
    conversationId := "cv1"
    senderId := "u1"
    senderType := SenderType.customer
    socketId := "s1" }

/-- The dangling-timer scenario state: socket `s1` is registered as customer
`u1` viewing conversation `cv1`, and the typing map holds the timer its
typing event armed (key `cv1:u1`). -/
def c8State : ServerState :=
  { initState [] with
      activeConnections :=
        [("s1", { socketId := "s1", conversationId := some ("cv1"),
                  userId := "u1", userType := SenderType.customer })],
      typingUsers := [("cv1:u1", c8Timer)] }

/-- Room snapshot of the typing-expiry witness scenario: conversation room
`cv1` with the sender's socket and two observers. -/
def c9Rooms : List (String × List String) :=
  [("conversation:cv1", ["sA", "sB", "sC"])]

/-- The agent row of the auto-assign witness scenario. -/
def w3Agent : AgentRec :=
  { id := "a1", email := "alice@support.example", name := "Alice",
    isOnline := true, lastSeen := 0 }

/-- The open, unassigned conversation of the auto-assign witness scenario. -/
def w3Conv : Conversation :=
  { id := "cv1"
    customerId := "u1"
    customerName := none
    customerEmail := none
    agentId := none
    status := ConvStatus.open'
    priority := Priority.normal
    unreadCount := 1
    createdAt := 0
    updatedAt := 0 }

/-- The auto-assign witness state: one agent, one open conversation. -/
def w3State : ServerState :=
  { initState [w3Agent] with
      db := { agents := [w3Agent], conversations := [w3Conv], messages := [] },
      now := 5 }

/-- The agent message of the auto-assign witness scenario. -/
def w3P : AgentMessagePayload :=
  { conversationId := "cv1", agentId := "a1", content := "hello",
    fileUrl := none, fileName := none, tempId := some ("t1") }

/-- The agent message of the unknown-conversation witness scenario. -/
def w4P : AgentMessagePayload :=
  { conversationId := "does-not-exist", agentId := "a1", content := "hello",
    fileUrl := none, fileName := none, tempId := some ("t9") }

/-- The conversation of the no-ownership-check witness scenario, owned by
customer `u1`. -/
def w10Conv : Conversation :=
  { id := "cv1"
    customerId := "u1"
    customerName := none
    customerEmail := none
    agentId := none
    status := ConvStatus.open'
    priority := Priority.normal
    unreadCount := 1
    createdAt := 0
    updatedAt := 0 }

/-- The no-ownership-check witness state: one conversation owned by `u1`. -/
def w10State : ServerState :=
  { initState [] with
      db := { agents := [], conversations := [w10Conv], messages := [] },
      now := 7 }

/-- A customer message from a DIFFERENT customer (`u2`) explicitly targeting
`u1`'s conversation. -/
def w10P : CustomerMessagePayload :=
  { conversationId := some ("cv1")
    customerId := "u2"
    customerName := some ("Mallory")
    customerEmail := none
    content := "hi"
    fileUrl := none
    fileName := none
    tempId := none }

/-- A single-row update commutes with lookup on the same key, provided the
update preserves the id. -/
theorem findConvById_updateConvById {convs : List Conversation} {cid : String}
    {f : Conversation → Conversation} (hf : ∀ c, (f c).id = c.id) :
    findConvById (updateConvById convs cid f) cid =
      (findConvById convs cid).map f := by
  induction convs with
  | nil => rfl
  | cons c rest ih =>
    simp only [findConvById, updateConvById, List.map_cons, List.find?_cons] at *
    by_cases hc : c.id = cid
    · simp [hc, hf c]
    · have h1 : (c.id == cid) = false := by simp [hc]
      have h2 : ((if c.id == cid then f c else c).id == cid) = false := by
        simp [h1, hc]
      rw [h2, h1]
      exact ih

/-- In an otherwise-idle server the handler body is exactly the awaited
lookup followed by its continuation: `customerMessageResume` is the source
handler's post-await continuation, not a separate algorithm. -/
theorem customerMessageCore_none_eq_resume (s : ServerState) (sid : String)
    (p : CustomerMessagePayload) (hc : p.conversationId = none) :
    customerMessageCore s sid p =
      customerMessageResume s sid p (findFirstActive s.db.conversations p.customerId) := by
  unfold customerMessageCore
  rw [hc]

/-- C1: the lookup-before-create does NOT preserve the
at-most-one-active-conversation invariant, because the handler suspends at
the `await` separating the `findFirst` lookup from the `create`: in the
schedule where two concurrent first messages of the same customer both
complete their lookups (both observing no active conversation) before either
continuation runs, both continuations create a conversation, leaving TWO rows
in status `open` for one customer. -/
theorem C1_concurrent_first_messages_break_invariant :
    raceLookup = none ∧
    parseCustomerMessage c2Raw = some raceP ∧
    c1RaceState.db.conversations.map (fun c => (c.customerId, c.status)) =
      [(scnCustomerId, ConvStatus.open'), (scnCustomerId, ConvStatus.open')] ∧
    ¬ AtMostOneActive c1RaceState.db.conversations := by
  refine ⟨rfl, rfl, rfl, ?_⟩
  intro h
  unfold AtMostOneActive activeExcl at h
  exact absurd h (by decide)

/-- C2: evaluating the unread-accounting scenario on the code: after three
customer messages into a fresh conversation the stored `unreadCount` is 4,
not 3 — creation seeds `unreadCount: 1` and then the shared tail increments
once per message, double-counting the first message — while the agent
`messages:mark-read` does reset it to 0. -/
theorem C2_unread_count_code_behavior :
    c2S3.db.conversations.map (fun c => c.unreadCount) = [4] ∧
    c2S4.db.conversations.map (fun c => c.unreadCount) = [0] :=
  ⟨rfl, rfl⟩

/-- C3: for a valid `agent:message` whose agent and conversation exist, the
stored conversation afterwards has status `assigned` when it was `open` (and
an unchanged status otherwise), and its `agentId` becomes the sender's exactly
when it was null, remaining unchanged when a (nonempty) agent was already
assigned. -/
theorem C3_agent_first_reply_auto_assign (s : ServerState) (sid : String)
    (p : AgentMessagePayload) (ag : AgentRec) (conv : Conversation)
    (hag : findAgentById s.db.agents p.agentId = some ag)
    (hconv : findConvById s.db.conversations p.conversationId = some conv) :
    ∃ conv',
      findConvById (agentMessageCore s sid p).1.db.conversations p.conversationId
        = some conv' ∧
      (conv.status = ConvStatus.open' → conv'.status = ConvStatus.assigned) ∧
      (conv.agentId = none → conv'.agentId = some p.agentId) ∧
      (∀ a, conv.agentId = some a → a ≠ "" → conv'.agentId = some a) ∧
      (conv.status ≠ ConvStatus.open' → conv'.status = conv.status) := by
  refine ⟨agentAssignUpdate s.now conv p.agentId conv, ?_, ?_, ?_, ?_, ?_⟩
  · unfold agentMessageCore
    rw [hag]
    dsimp only
    rw [hconv]
    dsimp only
    rw [@findConvById_updateConvById s.db.conversations p.conversationId
      (agentAssignUpdate s.now conv p.agentId) (fun c => rfl), hconv]
    rfl
  · intro h1
    simp [agentAssignUpdate, h1]
  · intro h1
    simp [agentAssignUpdate, jsOr, h1]
  · intro a h1 h2
    simp [agentAssignUpdate, jsOr, h1, h2]
  · intro h1
    simp [agentAssignUpdate, if_neg h1]

theorem C3_agent_first_reply_auto_assign_witness :
    findAgentById w3State.db.agents w3P.agentId = some w3Agent ∧
    findConvById w3State.db.conversations w3P.conversationId = some w3Conv ∧
    ∃ conv',
      findConvById (agentMessageCore w3State ("sA") w3P).1.db.conversations
        w3P.conversationId = some conv' ∧
      (w3Conv.status = ConvStatus.open' → conv'.status = ConvStatus.assigned) ∧
      (w3Conv.agentId = none → conv'.agentId = some w3P.agentId) ∧
      (∀ a, w3Conv.agentId = some a → a ≠ "" → conv'.agentId = some a) ∧
      (w3Conv.status ≠ ConvStatus.open' → conv'.status = w3Conv.status) :=
  ⟨rfl, rfl, C3_agent_first_reply_auto_assign w3State ("sA") w3P w3Agent w3Conv rfl rfl⟩

/-- C4: an `agent:message` naming a conversation that does not exist leaves
the state untouched (in particular no Message row is created) and produces
exactly one `message:error` to the sender, echoing the supplied `tempId`. -/
theorem C4_agent_message_unknown_conversation (s : ServerState) (sid : String)
    (p : AgentMessagePayload)
    (hconv : findConvById s.db.conversations p.conversationId = none) :
    (agentMessageCore s sid p).1 = s ∧
    ∃ err, (agentMessageCore s sid p).2 =
      [(Target.socketOnly sid, OutEvent.messageError (p.tempId.map RawVal.str) err)] := by
  unfold agentMessageCore
  cases ha : findAgentById s.db.agents p.agentId with
  | none => exact ⟨rfl, ⟨"Agent not found", rfl⟩⟩
  | some agent =>
    dsimp only
    rw [hconv]
    exact ⟨rfl, ⟨"Conversation not found", rfl⟩⟩

theorem C4_agent_message_unknown_conversation_witness :
    findConvById (initState []).db.conversations w4P.conversationId = none ∧
    ((agentMessageCore (initState []) ("sA") w4P).1 = initState [] ∧
      ∃ err, (agentMessageCore (initState []) ("sA") w4P).2 =
        [(Target.socketOnly ("sA"),
          OutEvent.messageError (w4P.tempId.map RawVal.str) err)]) :=
  ⟨rfl, C4_agent_message_unknown_conversation (initState []) ("sA") w4P rfl⟩

/-- C5 counterexample: the claim that every inbound event is schema-validated
before processing fails on `agent:online`: a payload whose `agentId` is a
number (malformed for the declared `AgentStatusPayload`) is still processed —
the handler emits an `agent:status` broadcast to everyone (not a
`message:error` to the sender) and mutates room state. -/
theorem C5_validation_counterexample :
    eventAccepts InboundEvent.agentOnline c5BadRaw = false ∧
    ¬ ErrorOnlyOutcome (initState []) ("s1")
        (dispatch InboundEvent.agentOnline true (initState []) ("s1") c5BadRaw) := by
  constructor
  · rfl
  · intro hcl
    rcases hcl with ⟨-, h2⟩
    rcases h2 (Target.everyone, OutEvent.agentStatus (some (RawVal.num 42)) true 0)
      (by decide) with ⟨t, err, heq⟩
    simp at heq

/-- C5 amended: seven of the nine inbound events (all but `agent:online` and
`agent:offline`) are schema-validated before any processing: a payload their
schema rejects leaves the state unchanged and emits at most a `message:error`
to the sender. -/
theorem C5_amended_seven_events_validated (e : InboundEvent) (pOk : Bool)
    (s : ServerState) (sid : String) (raw : RawPayload)
    (hno : e ≠ InboundEvent.agentOnline) (hnf : e ≠ InboundEvent.agentOffline)
    (hbad : eventAccepts e raw = false) :
    ErrorOnlyOutcome s sid (dispatch e pOk s sid raw) := by
  cases e with
  | agentOnline => exact absurd rfl hno
  | agentOffline => exact absurd rfl hnf
  | customerJoin =>
    show ErrorOnlyOutcome s sid (handleCustomerJoin s sid raw)
    unfold handleCustomerJoin
    cases hpp : parseCustomerJoin raw with
    | some pp => simp [eventAccepts, hpp] at hbad
    | none =>
      refine ⟨rfl, ?_⟩
      intro em hm
      rcases List.mem_singleton.mp hm with rfl
      exact ⟨none, "Invalid join data", rfl⟩
  | customerMessage =>
    show ErrorOnlyOutcome s sid (handleCustomerMessage s sid raw)
    unfold handleCustomerMessage
    cases hpp : parseCustomerMessage raw with
    | some pp => simp [eventAccepts, hpp] at hbad
    | none =>
      refine ⟨rfl, ?_⟩
      intro em hm
      rcases List.mem_singleton.mp hm with rfl
      exact ⟨getRaw raw ("tempId"), "Invalid message data", rfl⟩
  | customerTyping =>
    show ErrorOnlyOutcome s sid (handleCustomerTyping s sid raw)
    unfold handleCustomerTyping
    cases hpp : parseTyping raw with
    | some pp => simp [eventAccepts, hpp] at hbad
    | none =>
      refine ⟨rfl, ?_⟩
      intro em hm
      exact absurd hm (List.not_mem_nil em)
  | agentJoin =>
    show ErrorOnlyOutcome s sid (handleAgentJoin s sid raw)
    unfold handleAgentJoin
    cases hpp : parseAgentJoin raw with
    | some pp => simp [eventAccepts, hpp] at hbad
    | none =>
      refine ⟨rfl, ?_⟩
      intro em hm
      rcases List.mem_singleton.mp hm with rfl
      exact ⟨none, "Invalid join data", rfl⟩
  | agentMessage =>
    show ErrorOnlyOutcome s sid (handleAgentMessage s sid raw)
    unfold handleAgentMessage
    cases hpp : parseAgentMessage raw with
    | some pp => simp [eventAccepts, hpp] at hbad
    | none =>
      refine ⟨rfl, ?_⟩
      intro em hm
      rcases List.mem_singleton.mp hm with rfl
      exact ⟨getRaw raw ("tempId"), "Invalid message data", rfl⟩
  | agentTyping =>
    show ErrorOnlyOutcome s sid (handleAgentTyping s sid raw)
    unfold handleAgentTyping
    cases hpp : parseTyping raw with
    | some pp => simp [eventAccepts, hpp] at hbad
    | none =>
      refine ⟨rfl, ?_⟩
      intro em hm
      exact absurd hm (List.not_mem_nil em)
  | markRead =>
    show ErrorOnlyOutcome s sid (handleMarkRead s sid raw)
    unfold handleMarkRead
    cases hpp : parseMarkRead raw with
    | some pp => simp [eventAccepts, hpp] at hbad
    | none =>
      refine ⟨rfl, ?_⟩
      intro em hm
      exact absurd hm (List.not_mem_nil em)

theorem C5_amended_seven_events_validated_witness :
    InboundEvent.customerTyping ≠ InboundEvent.agentOnline ∧
    InboundEvent.customerTyping ≠ InboundEvent.agentOffline ∧
    eventAccepts InboundEvent.customerTyping [] = false ∧
    ErrorOnlyOutcome (initState []) ("s1")
      (dispatch InboundEvent.customerTyping true (initState []) ("s1") []) :=
  ⟨by decide, by decide, rfl,
   C5_amended_seven_events_validated InboundEvent.customerTyping true
     (initState []) ("s1") [] (by decide) (by decide) rfl⟩

/-- C6: whatever the outcome of the fire-and-forget persistence (including
failure, `persistOk = false`), `agent:online` emits exactly one `agent:status`
broadcast with `isOnline: true` and a `lastSeen` timestamp to every connected
client. -/
theorem C6_agent_online_broadcast_despite_persist_failure (persistOk : Bool)
    (s : ServerState) (sid : String) (raw : RawPayload) :
    (handleAgentOnline persistOk s sid raw).2 =
      [(Target.everyone, OutEvent.agentStatus (getRaw raw ("agentId")) true s.now)] :=
  rfl

/-- C7 counterexample: two `customer:typing` events for the same
(conversationId, senderId) 1000 ms apart do NOT produce exactly one
`typing:start` broadcast — the handler broadcasts a start on every event, so
the full trace (including the eventual expiry) contains two. -/
theorem C7_typing_refresh_counterexample :
    countTypingStarts c7Trace = 2 ∧ countTypingStarts c7Trace ≠ 1 :=
  ⟨rfl, by decide⟩

/-- C7 amended: two typing events for the same key `gap` ms apart
(0 < gap < 3000) produce one `typing:start` broadcast PER EVENT (two in
total) and no stop in between; the single armed timer then expires 3000 ms
after the SECOND event — nothing fires 3000 ms after the first event, and the
single `typing:stop` fires at `second event + 3000`. -/
theorem C7_typing_refresh_amended (s : ServerState) (sid : String)
    (p : TypingPayload) (gap : Nat) (hT : s.typingUsers = [])
    (h0 : 0 < gap) (h3 : gap < 3000) :
    countTypingStarts (typingRefreshEvents s sid p gap) = 2 ∧
    countTypingStops (typingRefreshEvents s sid p gap) = 0 ∧
    (typingRefreshAfter s sid p gap).typingUsers =
      [(p.conversationId ++ ":" ++ p.senderId,
        { expiresAt := s.now + gap + 3000
          conversationId := p.conversationId
          senderId := p.senderId
          senderType := p.senderType
          socketId := sid })] ∧
    (elapseTo (typingRefreshAfter s sid p gap) (s.now + 3000)).2 = [] ∧
    (elapseTo (typingRefreshAfter s sid p gap) (s.now + gap + 3000)).2 =
      [(Target.roomExcept ("conversation:" ++ p.conversationId) sid,
        OutEvent.typingStop p.conversationId p.senderId p.senderType)] := by
  have hmax : max s.now (s.now + gap) = s.now + gap :=
    Nat.max_eq_right (Nat.le_add_right _ _)
  have hlt1 : (s.now + 3000 ≤ s.now + gap) = False := eq_false (by omega)
  have hlt2 : (s.now + gap + 3000 ≤ s.now + 3000) = False := eq_false (by omega)
  have hle : (s.now + gap + 3000 ≤ s.now + gap + 3000) = True := eq_true (le_refl _)
  refine ⟨?_, ?_, ?_, ?_, ?_⟩ <;>
    simp [typingRefreshEvents, typingRefreshAfter, typingCore, elapseTo,
      typingTimeoutMs, hT, countTypingStarts, countTypingStops,
      hmax, hlt1, hlt2, hle, List.filter]

theorem C7_typing_refresh_amended_witness :
    (initState []).typingUsers = [] ∧ 0 < 1000 ∧ 1000 < 3000 ∧
    (countTypingStarts (typingRefreshEvents (initState []) ("sA") scnTypingP 1000) = 2 ∧
     countTypingStops (typingRefreshEvents (initState []) ("sA") scnTypingP 1000) = 0 ∧
     (typingRefreshAfter (initState []) ("sA") scnTypingP 1000).typingUsers =
       [(scnTypingP.conversationId ++ ":" ++ scnTypingP.senderId,
         { expiresAt := (initState []).now + 1000 + 3000
           conversationId := scnTypingP.conversationId
           senderId := scnTypingP.senderId
           senderType := scnTypingP.senderType
           socketId := "sA" })] ∧
     (elapseTo (typingRefreshAfter (initState []) ("sA") scnTypingP 1000)
       ((initState []).now + 3000)).2 = [] ∧
     (elapseTo (typingRefreshAfter (initState []) ("sA") scnTypingP 1000)
       ((initState []).now + 1000 + 3000)).2 =
       [(Target.roomExcept ("conversation:" ++ scnTypingP.conversationId) ("sA"),
         OutEvent.typingStop scnTypingP.conversationId scnTypingP.senderId
           scnTypingP.senderType)]) :=
  ⟨rfl, by decide, by decide,
   C7_typing_refresh_amended (initState []) ("sA") scnTypingP 1000 rfl
     (by decide) (by decide)⟩

/-- C8: evaluating the disconnect handler on a state where the disconnecting
customer connection owns an armed typing timer: the registry entry is removed,
but the typing timer survives — the cleanup loop matches
`key.includes(socket.id)` while keys have the form `conversationId:senderId`
and never contain the socket id. -/
theorem C8_disconnect_leaves_typing_timer :
    (handleDisconnect true c8State ("s1")).1.typingUsers = [("cv1:u1", c8Timer)] ∧
    (handleDisconnect true c8State ("s1")).1.activeConnections = [] ∧
    strIncludes ("cv1:u1") ("s1") = false :=
  ⟨rfl, rfl, rfl⟩

/-- C9: one `customer:typing` event followed by at least 3000 ms of silence
delivers to every member of the conversation room other than the sender's
socket exactly `typing:start` then `typing:stop`, in that order, and delivers
nothing to the sender's own socket. -/
theorem C9_typing_expiry_delivery (s : ServerState) (sid : String)
    (p : TypingPayload) (d : Nat) (rooms : List (String × List String))
    (m : String) (hT : s.typingUsers = []) (hd : 3000 ≤ d)
    (hm : m ∈ roomMembers rooms ("conversation:" ++ p.conversationId))
    (hms : m ≠ sid) :
    deliveredTo rooms m (typingExpiryEvents s sid p d) =
      [OutEvent.typingStart p.conversationId p.senderId p.senderType,
       OutEvent.typingStop p.conversationId p.senderId p.senderType] ∧
    deliveredTo rooms sid (typingExpiryEvents s sid p d) = [] := by
  have hfire : (s.now + typingTimeoutMs ≤ s.now + d) = True :=
    eq_true (by simp [typingTimeoutMs]; omega)
  have hev : typingExpiryEvents s sid p d =
      [(Target.roomExcept ("conversation:" ++ p.conversationId) sid,
        OutEvent.typingStart p.conversationId p.senderId p.senderType),
       (Target.roomExcept ("conversation:" ++ p.conversationId) sid,
        OutEvent.typingStop p.conversationId p.senderId p.senderType)] := by
    simp [typingExpiryEvents, typingCore, elapseTo, hT, hfire, List.filter]
  rw [hev]
  have hne : (m != sid) = true := bne_iff_ne.mpr hms
  constructor
  · simp [deliveredTo, receives, List.filter, hm, hne]
  · simp [deliveredTo, receives, List.filter]

theorem C9_typing_expiry_delivery_witness :
    (initState []).typingUsers = [] ∧ 3000 ≤ 3100 ∧
    "sB" ∈ roomMembers c9Rooms ("conversation:" ++ scnTypingP.conversationId) ∧
    "sB" ≠ "sA" ∧
    (deliveredTo c9Rooms ("sB") (typingExpiryEvents (initState []) ("sA") scnTypingP 3100) =
      [OutEvent.typingStart scnTypingP.conversationId scnTypingP.senderId
         scnTypingP.senderType,
       OutEvent.typingStop scnTypingP.conversationId scnTypingP.senderId
         scnTypingP.senderType] ∧
     deliveredTo c9Rooms ("sA") (typingExpiryEvents (initState []) ("sA") scnTypingP 3100) = []) :=
  ⟨rfl, by decide, by decide, by decide,
   C9_typing_expiry_delivery (initState []) ("sA") scnTypingP 3100 c9Rooms ("sB")
     rfl (by decide) (by decide) (by decide)⟩

/-- C10: a `customer:message` carrying an explicit `conversationId` of an
EXISTING conversation is persisted and broadcast to that conversation's room
even when the conversation belongs to a different customer — the handler
performs no ownership check tying the supplied conversation to the sender. -/
theorem C10_no_ownership_check (s : ServerState) (sid : String)
    (p : CustomerMessagePayload) (cid : String) (conv : Conversation)
    (hcid : p.conversationId = some cid)
    (hfind : findConvById s.db.conversations cid = some conv)
    (_hdiff : conv.customerId ≠ p.customerId) :
    (customerMessageCore s sid p).1.db.messages =
      mkCustomerMessage s p conv.id :: s.db.messages ∧
    (Target.room ("conversation:" ++ conv.id),
      OutEvent.messageReceived (mkCustomerMessage s p conv.id))
        ∈ (customerMessageCore s sid p).2 := by
  unfold customerMessageCore
  rw [hcid]
  dsimp only
  rw [hfind]
  dsimp only
  unfold sharedCustomerTail
  dsimp only
  constructor
  · rfl
  · simp [List.mem_append]

theorem C10_no_ownership_check_witness :
    w10P.conversationId = some ("cv1") ∧
    findConvById w10State.db.conversations ("cv1") = some w10Conv ∧
    w10Conv.customerId ≠ w10P.customerId ∧
    ((customerMessageCore w10State ("sX") w10P).1.db.messages =
       mkCustomerMessage w10State w10P w10Conv.id :: w10State.db.messages ∧
     (Target.room ("conversation:" ++ w10Conv.id),
       OutEvent.messageReceived (mkCustomerMessage w10State w10P w10Conv.id))
         ∈ (customerMessageCore w10State ("sX") w10P).2) :=
  ⟨rfl, rfl, by decide,
   C10_no_ownership_check w10State ("sX") w10P ("cv1") w10Conv rfl rfl (by decide)⟩
